import Mathlib

/-!
# LFB Response-Time Dashboard — verification of the filter-and-aggregate pipeline

A shallow embedding of the recurring filter → deduplicate → aggregate pipeline
shared by the dashboard pages (`src/pages/1_Executive_Summary.py`,
`2_Incident_Composition.py`, `3_Response_Performance.py`,
`4_Geographic_Performance.py`, `5_Drivers_of_Response_Time.py`,
`Key Findings & Implications.py`) together with the load-time feature
engineering of `src/data_loader.py`.

Modelling conventions:
* a dataframe is a `List Record`, one element per mobilisation row;
* a sidebar selection is an `Option` value, `none` standing for the sentinel
  `"All"`;
* nullable columns (pandas `NaN`) are `Option` fields; a pandas comparison
  such as `x <= 360` evaluates to `False` on `NaN`, which the embedding
  mirrors by returning `false` on `none`;
* elapsed times are kept in integer seconds on records; rational numbers
  enter only in the aggregation layer (means, medians, percentages), where
  pandas works with floats;
* `pd.DataFrame.sort_values("PumpOrder")` is modelled by an insertion sort
  keyed on `pumpOrder`; `drop_duplicates("IncidentNumber")` (keep-first) by
  a seen-set recursion;
* the statistics that pandas renders as `NaN` on an empty column
  (`mean`, `median`) are `Option ℚ` valued.
-/

namespace LFB

/-- One mobilisation row of the loaded dataset (`Data/lfb_streamlit.parquet`
after the feature engineering of `src/data_loader.py`).  `year` and
`monthName` stand for the columns derived from `CallDate` at load time;
`firstPumpWithin6min` is the load-time compliance flag; `responseMinutes`
and `responseBand` are the columns that `3_Response_Performance.py` assigns
after deduplication (absent, i.e. `none`, at load time). -/
structure Record where
  incidentNumber : String
  pumpOrder : Nat
  year : Int
  monthName : String
  incidentGroup : Option String
  incGeoBoroughName : String
  attendanceTime : Option Nat
  turnoutTimeSeconds : Option Nat
  travelTimeSeconds : Option Nat
  firstPumpWithin6min : Bool := false
  responseMinutes : Option ℚ := none
  responseBand : Option String := none
  deriving DecidableEq

/-- Model of `df["FirstPumpArriving_AttendanceTime"] <= c` for one row: pandas
comparisons on `NaN` yield `False`. -/
def attendanceLe (c : Nat) (r : Record) : Bool :=
  match r.attendanceTime with
  | some a => a ≤ c
  | none => false

/-- Model of `df["FirstPumpArriving_AttendanceTime"] > c` for one row (`NaN > c` is
`False` in pandas). -/
def attendanceGt (c : Nat) (r : Record) : Bool :=
  match r.attendanceTime with
  | some a => c < a
  | none => false

/-- The load-time feature engineering of `src/data_loader.py` that the
pipeline later relies on: the compliance flag
`df["FirstPump_Within_6min"] = df["FirstPumpArriving_AttendanceTime"] <= 360`. -/
def loadFlag (r : Record) : Record :=
  { r with firstPumpWithin6min := attendanceLe 360 r }

/-- Model of `load_data` (`src/data_loader.py`): read the parquet file and add the
derived columns.  The `CallDate`-derived columns are already fields of
`Record`; the part modelled explicitly is the compliance flag. -/
def loadData (raw : List Record) : List Record :=
  raw.map loadFlag

/-! ## The temporal/categorical filter

The four-branch `if selected_year == "All" and selected_month == "All" ...`
block shared verbatim by every page, followed on pages 1, 4 and
`Key Findings & Implications` by the optional incident-type filter. -/

/-- The year/month filter branches (`1_Executive_Summary.py` lines 83–96 and
identically on the other pages).  `none` is the `"All"` sentinel; the first
branch is `df.copy()`. -/
def yearMonthBranchFilter (df : List Record) :
    Option Int → Option String → List Record
  | none, none => df
  | none, some m => df.filter (fun r => decide (r.monthName = m))
  | some y, none => df.filter (fun r => decide (r.year = y))
  | some y, some m =>
      df.filter (fun r => decide (r.year = y) && decide (r.monthName = m))

/-- The incident-type filter (`1_Executive_Summary.py` lines 99–102): applied
only when the selection is not `"All"`; a pandas `==` against a `NaN`
`IncidentGroup` is `False`. -/
def incidentTypeFilter (df : List Record) : Option String → List Record
  | none => df
  | some g => df.filter (fun r => decide (r.incidentGroup = some g))

/-- Model of `filtered_df` as built by pages with all three selectors (year, month,
incident type). -/
def filteredDf (df : List Record) (y : Option Int) (m t : Option String) :
    List Record :=
  incidentTypeFilter (yearMonthBranchFilter df y m) t

/-- Modelled from the spec: §4.1 step 1 describes the filter as the single
conjunction (`year_filter == "All"` or `Year == year_filter`) AND
(`month_filter == "All"` or `MonthName == month_filter`) AND
(`incident_type_filter == "All"` or `IncidentGroup == incident_type_filter`),
with `"All"` imposing no constraint.  This is the spec-side definition that
the four-branch implementation is compared against. -/
def specConjunctionFilter (df : List Record) (y : Option Int)
    (m t : Option String) : List Record :=
  df.filter (fun r =>
    (match y with | none => true | some v => decide (r.year = v)) &&
    (match m with | none => true | some v => decide (r.monthName = v)) &&
    (match t with | none => true | some v => decide (r.incidentGroup = some v)))

/-! ## Deduplication to incident level

`filtered_df.sort_values("PumpOrder").drop_duplicates("IncidentNumber").copy()`
(identical on pages 1, 3, 4 and 5). -/

/-- Insert into a list that is kept ordered by `le`, after every element that
is `le` the inserted one (so equal keys keep their arrival order). -/
def insertLe (le : α → α → Bool) (x : α) : List α → List α
  | [] => [x]
  | y :: ys => if le y x then y :: insertLe le x ys else x :: y :: ys

/-- Stable insertion sort: the model of `sort_values` on one key. -/
def sortLe (le : α → α → Bool) (xs : List α) : List α :=
  xs.foldl (fun acc x => insertLe le x acc) []

/-- The sort key of `sort_values("PumpOrder")`. -/
def pumpLe (a b : Record) : Bool :=
  a.pumpOrder ≤ b.pumpOrder

/-- Model of `filtered_df.sort_values("PumpOrder")`, modelled with a stable sort (see
the C3 analysis: pandas defaults to an unstable 'quicksort'; every property
proved about the pipeline below is insensitive to which PumpOrder-sorted
rearrangement is produced unless stated otherwise). -/
def sortValuesPumpOrder (df : List Record) : List Record :=
  sortLe pumpLe df

/-- Model of `drop_duplicates("IncidentNumber")` with the default `keep="first"`:
walk the list, keeping a row only when its `IncidentNumber` has not been
seen yet. -/
def dropDuplicatesAux (seen : List String) : List Record → List Record
  | [] => []
  | r :: rs =>
      if r.incidentNumber ∈ seen then dropDuplicatesAux seen rs
      else r :: dropDuplicatesAux (r.incidentNumber :: seen) rs

/-- Model of `drop_duplicates("IncidentNumber")`. -/
def dropDuplicatesIncidentNumber (df : List Record) : List Record :=
  dropDuplicatesAux [] df

/-- Model of `filtered_incidents`: the mobilisation-level frame reduced to incident
level (first pump only). -/
def filteredIncidents (df : List Record) : List Record :=
  dropDuplicatesIncidentNumber (sortValuesPumpOrder df)

/-! ## Aggregation (the KPI block of `1_Executive_Summary.py` lines 155–159) -/

/-- Comparison used to sort rationals when taking order statistics. -/
def ratLe (a b : ℚ) : Bool :=
  decide (a ≤ b)

/-- pandas `Series.mean()`: `NaN` (here `none`) on an empty column,
otherwise sum divided by length. -/
def meanQ (xs : List ℚ) : Option ℚ :=
  if xs.length = 0 then none else some (xs.sum / xs.length)

/-- pandas `Series.median()` over the non-null values: `NaN` on an empty
column; the middle order statistic for odd length; the mean of the two
central order statistics for even length. -/
def medianQ (xs : List ℚ) : Option ℚ :=
  let s := sortLe ratLe xs
  if s.length = 0 then none
  else if s.length % 2 = 1 then some (s.getD (s.length / 2) 0)
  else some ((s.getD (s.length / 2 - 1) 0 + s.getD (s.length / 2) 0) / 2)

/-- A boolean pandas column viewed as a numeric 0/1 column (what `.mean()`
computes with). -/
def indicator (b : Bool) : ℚ :=
  if b then 1 else 0

/-- The non-null attendance values of a frame, as rationals (pandas
statistics skip `NaN`). -/
def attendanceSeconds (df : List Record) : List ℚ :=
  df.filterMap (fun r => r.attendanceTime.map (fun a => (a : ℚ)))

/-- The KPI block computed from `filtered_incidents` on
`1_Executive_Summary.py` (lines 155–159) and `3_Response_Performance.py`
(lines 138–141). -/
structure Stats where
  totalIncidents : Nat
  medianResponse : Option ℚ
  responseWithin6min : Option ℚ
  extremeDelayRate : Option ℚ
  deriving DecidableEq

/-- Model of `total_incidents`, `median_response`, `response_within_6min`,
`extreme_delay_rate` exactly as computed in the source (the
`p90_response = quantile(0.90)/60` KPI is not modelled: no claim concerns
the general interpolated quantile): the median is taken
in seconds and divided by 60; the two rates are means of boolean columns
times 100 (`NaN` attendance counts as `False`, i.e. non-compliant, but stays
in the denominator). -/
def computeKPIs (fi : List Record) : Stats :=
  { totalIncidents := fi.length
    medianResponse := (medianQ (attendanceSeconds fi)).map (fun x => x / 60)
    responseWithin6min :=
      (meanQ (fi.map (fun r => indicator (attendanceLe 360 r)))).map
        (fun x => x * 100)
    extremeDelayRate :=
      (meanQ (fi.map (fun r => indicator (attendanceGt 600 r)))).map
        (fun x => x * 100) }

/-- The Executive Summary page as one function of the loaded frame and the
three sidebar selections: filter, halt with `none` on an empty filtered
frame (`st.warning` + `st.stop`, the spec's `EmptyResult`), otherwise
deduplicate and aggregate. -/
def executiveSummaryPipeline (df : List Record) (y : Option Int)
    (m t : Option String) : Option Stats :=
  let fd := filteredDf df y m t
  if fd.isEmpty then none
  else some (computeKPIs (filteredIncidents fd))

/-! ## Component decomposition (`5_Drivers_of_Response_Time.py`) -/

/-- Model of `filtered_incidents["TurnoutMinutes"] = TurnoutTimeSeconds / 60`, then
``.median()`` over the non-null values. -/
def overallTurnout (fi : List Record) : Option ℚ :=
  medianQ (fi.filterMap (fun r => r.turnoutTimeSeconds.map (fun a => (a : ℚ) / 60)))

/-- Model of `filtered_incidents["TravelMinutes"] = TravelTimeSeconds / 60`, then
``.median()``. -/
def overallTravel (fi : List Record) : Option ℚ :=
  medianQ (fi.filterMap (fun r => r.travelTimeSeconds.map (fun a => (a : ℚ) / 60)))

/-- Model of `total_component = overall_turnout + overall_travel;
travel_share_pct = (overall_travel / total_component) * 100`
(`5_Drivers_of_Response_Time.py` lines 164–168): the denominator is the sum
of the two independent medians, not the median of the summed series. -/
def travelSharePct (fi : List Record) : Option ℚ :=
  match overallTurnout fi, overallTravel fi with
  | some t, some v => some (v / (t + v) * 100)
  | _, _ => none

/-- The per-incident summed series `Turnout + Travel` (in minutes), the
quantity the spec's §4.1 point 5 compares the sum of medians against.  Rows
where either component is missing contribute nothing (pandas sum of a `NaN`
pair is `NaN` and `median` skips it). -/
def medianComponentSum (fi : List Record) : Option ℚ :=
  medianQ (fi.filterMap (fun r =>
    match r.turnoutTimeSeconds, r.travelTimeSeconds with
    | some a, some b => some (((a : ℚ) + b) / 60)
    | _, _ => none))

/-! ## Borough-boundary join (`4_Geographic_Performance.py` lines 63, 170–252,
969–973) -/

/-- One row of the borough shapefile
(`Data/london_boroughs/London_Borough_Excluding_MHW.shp`): name, land area
in hectares and the ONS inner-London indicator (`"T"`/`"F"`). -/
structure BoroughShape where
  NAME : String
  HECTARES : ℚ
  ONS_INNER : String
  deriving DecidableEq

/-- ASCII whitespace, what `.str.strip()` removes from either end. -/
def isSpaceChar (c : Char) : Bool :=
  c = ' ' ∨ c = '\t' ∨ c = '\n' ∨ c = '\r'

/-- Strip leading and trailing whitespace from a character list. -/
def trimChars (l : List Char) : List Char :=
  ((l.dropWhile isSpaceChar).reverse.dropWhile isSpaceChar).reverse

/-- The merge key: `.str.strip().str.upper()` applied to a borough name on
either side of the join (modelled characterwise). -/
def cleanName (s : String) : String :=
  String.mk ((trimChars s.data).map Char.toUpper)

/-- One row of `borough_df` (= `borough_spatial_extent` plus the merged
ONS classification).  The fields merged from the shapefile are `Option`s:
a left join leaves them `NaN` when no boundary row matches. -/
structure BoroughRow where
  incGeoBoroughName : String
  medianResponseMinutes : Option ℚ
  complianceRate : Option ℚ
  incidentCount : Nat
  nameClean : String
  areaKm2 : Option ℚ := none
  onsInner : Option String := none
  areaType : Option String := none
  deriving DecidableEq

/-- Distinct keys of a `groupby`, in order of first appearance (pandas sorts
group keys; the claims below are insensitive to the order of the group
rows). -/
def uniqueAux (seen : List String) : List String → List String
  | [] => []
  | x :: xs =>
      if x ∈ seen then uniqueAux seen xs else x :: uniqueAux (x :: seen) xs

/-- Distinct borough names appearing in a frame. -/
def uniqueStrings (xs : List String) : List String :=
  uniqueAux [] xs

/-- The rows of one `groupby("IncGeo_BoroughName")` group. -/
def groupRows (fi : List Record) (b : String) : List Record :=
  fi.filter (fun r => decide (r.incGeoBoroughName = b))

/-- Model of `borough_spatial_extent` before the shapefile merges: per borough the
median response in minutes (`agg` of `median()/60`), the compliance rate
(`(x <= 360).mean() * 100`) and the incident count (`size()`), plus the
normalised merge key `NAME_clean`. -/
def spatialBase (fi : List Record) : List BoroughRow :=
  (uniqueStrings (fi.map (fun r => r.incGeoBoroughName))).map (fun b =>
    { incGeoBoroughName := b
      medianResponseMinutes :=
        (medianQ (attendanceSeconds (groupRows fi b))).map (fun x => x / 60)
      complianceRate :=
        (meanQ ((groupRows fi b).map
          (fun r => indicator (attendanceLe 360 r)))).map (fun x => x * 100)
      incidentCount := (groupRows fi b).length
      nameClean := cleanName b })

/-- Model of `merge(boroughs[["NAME_clean", "Area_km2"]], on="NAME_clean",
how="left")` with `Area_km2 = HECTARES / 100`: each left row is paired with
every matching shapefile row, or kept once with a null area when none
matches. -/
def mergeArea (rows : List BoroughRow) (shapes : List BoroughShape) :
    List BoroughRow :=
  rows.flatMap (fun row =>
    match shapes.filter (fun s => decide (cleanName s.NAME = row.nameClean)) with
    | [] => [{ row with areaKm2 := none }]
    | ms => ms.map (fun s => { row with areaKm2 := some (s.HECTARES / 100) }))

/-- Model of `merge(boroughs[["NAME_clean", "ONS_INNER"]], on="NAME_clean",
how="left")`. -/
def mergeOns (rows : List BoroughRow) (shapes : List BoroughShape) :
    List BoroughRow :=
  rows.flatMap (fun row =>
    match shapes.filter (fun s => decide (cleanName s.NAME = row.nameClean)) with
    | [] => [{ row with onsInner := none }]
    | ms => ms.map (fun s => { row with onsInner := some s.ONS_INNER }))

/-- Model of `borough_df["AreaType"] = borough_df["ONS_INNER"].map({"T": "Inner
London", "F": "Outer London"})`: any other value (including `NaN`) maps to
`NaN`. -/
def areaTypeOf : Option String → Option String
  | some "T" => some "Inner London"
  | some "F" => some "Outer London"
  | _ => none

/-- Model of `borough_df`: grouped statistics, both left merges against the
shapefile, and the mapped `AreaType`. -/
def boroughDf (fi : List Record) (shapes : List BoroughShape) :
    List BoroughRow :=
  (mergeOns (mergeArea (spatialBase fi) shapes) shapes).map
    (fun row => { row with areaType := areaTypeOf row.onsInner })

/-- Model of `inner_df = borough_df[borough_df["AreaType"] == "Inner London"]`. -/
def innerDf (bdf : List BoroughRow) : List BoroughRow :=
  bdf.filter (fun row => decide (row.areaType = some "Inner London"))

/-- Model of `outer_df = borough_df[borough_df["AreaType"] == "Outer London"]`. -/
def outerDf (bdf : List BoroughRow) : List BoroughRow :=
  bdf.filter (fun row => decide (row.areaType = some "Outer London"))

/-- The column pairs handed to `linregress(borough_df["Area_km2"],
borough_df["MedianResponseMinutes"])` (`4_Geographic_Performance.py` lines
969–971): every row of `borough_df` contributes a pair — the source applies
no `dropna` before the regression. -/
def areaRegressionPairs (bdf : List BoroughRow) : List (Option ℚ × Option ℚ) :=
  bdf.map (fun row => (row.areaKm2, row.medianResponseMinutes))

/-! ## Flag-based compliance (`3_Response_Performance.py` line 155) -/

/-- Model of `compliance_rate = filtered_incidents["FirstPump_Within_6min"].mean() * 100`:
the rate read off the flag precomputed at load time, rather than from the
raw attendance column. -/
def complianceRateFromFlag (fi : List Record) : Option ℚ :=
  (meanQ (fi.map (fun r => indicator r.firstPumpWithin6min))).map
    (fun x => x * 100)

/-! ## A store of frames (`3_Response_Performance.py` as a stateful run)

pandas frames are mutable objects: boolean-mask selection, `sort_values`,
`drop_duplicates` and `.copy()` each allocate a fresh frame, while
`frame["col"] = ...` writes the addressed frame in place.  To settle the
frame/determinism claims the page run is modelled against an explicit store
of frames, with the loaded dataset one frame in it. -/

/-- A store of allocated frames; a frame identifier is an index. -/
structure Store where
  frames : List (List Record)
  deriving DecidableEq

/-- Read a frame (an unallocated identifier reads as an empty frame). -/
def Store.read (s : Store) (i : Nat) : List Record :=
  s.frames.getD i []

/-- Allocate a fresh frame holding `v`, returning its identifier. -/
def Store.alloc (s : Store) (v : List Record) : Store × Nat :=
  (⟨s.frames ++ [v]⟩, s.frames.length)

/-- Write a frame in place (`frame["col"] = ...`). -/
def Store.write (s : Store) (i : Nat) (v : List Record) : Store :=
  ⟨s.frames.set i v⟩

/-- Model of `filtered_incidents["ResponseMinutes"] =
filtered_incidents["FirstPumpArriving_AttendanceTime"] / 60` for one row. -/
def withResponseMinutes (r : Record) : Record :=
  { r with responseMinutes := r.attendanceTime.map (fun a => (a : ℚ) / 60) }

/-- Model of `pd.cut(ResponseMinutes, bins=[0, 6, 8, 10, inf], right=True)`: the
bands are the half-open intervals (0, 6], (6, 8], (8, 10], (10, ∞); values
outside every bin (including `NaN`) become `NaN`. -/
def responseBandOf : Option ℚ → Option String
  | none => none
  | some m =>
      if 0 < m ∧ m ≤ 6 then some "≤ 6 min"
      else if 6 < m ∧ m ≤ 8 then some "6–8 min"
      else if 8 < m ∧ m ≤ 10 then some "8–10 min"
      else if 10 < m then some "> 10 min"
      else none

/-- Model of `filtered_incidents["ResponseBand"] = pd.cut(...)` for one row. -/
def withResponseBand (r : Record) : Record :=
  { r with responseBand := responseBandOf r.responseMinutes }

/-- Model of `filtered_incidents["IncidentGroup"] = pd.Categorical(values,
categories=["False Alarm", "Special Service", "Fire"], ordered=True)`:
values outside the category list become `NaN`. -/
def withCategoricalIncidentGroup (r : Record) : Record :=
  { r with incidentGroup :=
      match r.incidentGroup with
      | some g =>
          if g = "False Alarm" ∨ g = "Special Service" ∨ g = "Fire"
          then some g else none
      | none => none }

/-- The output of one Response Performance page run: the KPI block (computed
before the column assignments, source lines 138–141) and the derived
incident-level table after them. -/
structure Page3Output where
  stats : Stats
  table : List Record
  deriving DecidableEq

/-- One run of `3_Response_Performance.py` against the store, `dfId` naming
the shared loaded dataset: branch filter (a fresh frame), the empty check
(`st.stop`, yielding no output), deduplication into a fresh copied frame,
the KPI block, then the three in-place column assignments on the copy. -/
def page3Exec (s0 : Store) (dfId : Nat) (y : Option Int) (m : Option String) :
    Store × Option Page3Output :=
  let df := s0.read dfId
  let a1 := s0.alloc (yearMonthBranchFilter df y m)
  let s1 := a1.1
  let fdId := a1.2
  if (s1.read fdId).isEmpty then (s1, none)
  else
    let a2 := s1.alloc (filteredIncidents (s1.read fdId))
    let s2 := a2.1
    let fiId := a2.2
    let stats := computeKPIs (s2.read fiId)
    let s3 := s2.write fiId ((s2.read fiId).map withResponseMinutes)
    let s4 := s3.write fiId ((s3.read fiId).map withResponseBand)
    let s5 := s4.write fiId ((s4.read fiId).map withCategoricalIncidentGroup)
    (s5, some { stats := stats, table := s5.read fiId })

/-- What one page run computes, as a function of the loaded frame alone
(used to relate the stateful run to the dataset it reads). -/
def page3Pure (df : List Record) (y : Option Int) (m : Option String) :
    Option Page3Output :=
  let fd := yearMonthBranchFilter df y m
  if fd.isEmpty then none
  else
    let fi := filteredIncidents fd
    some { stats := computeKPIs fi
           table := ((fi.map withResponseMinutes).map withResponseBand).map
             withCategoricalIncidentGroup }

/-! ## Concrete datasets for witnesses and counterexamples -/

/-- A concrete mobilisation row (January 2024 fires in Camden, the fields
that the claims quantify over being the explicit ones). -/
def mkRow (inc : String) (pump : Nat) (att turnout travel : Option Nat) :
    Record :=
  { incidentNumber := inc
    pumpOrder := pump
    year := 2024
    monthName := "January"
    incidentGroup := some "Fire"
    incGeoBoroughName := "Camden"
    attendanceTime := att
    turnoutTimeSeconds := turnout
    travelTimeSeconds := travel }

/-- The spec's deduplication scenario: two mobilisation rows of incident
`"A1"` with `PumpOrder` 1 and 2. -/
def twoMobilisations : List Record :=
  [mkRow "A1" 1 (some 300) (some 80) (some 220),
   mkRow "A1" 2 (some 300) (some 95) (some 240)]

/-- The spec's KPI scenario: 4 incidents with attendance times
[300, 360, 420, 900] seconds. -/
def scenarioIncidents : List Record :=
  [mkRow "N1" 1 (some 300) none none,
   mkRow "N2" 1 (some 360) none none,
   mkRow "N3" 1 (some 420) none none,
   mkRow "N4" 1 (some 900) none none]

/-- Three incidents whose (turnout, travel) seconds are (60, 60),
(120, 180), (180, 120): both component medians are 2 minutes while the
median of the per-incident sums is 5 minutes. -/
def driversExample : List Record :=
  [mkRow "D1" 1 (some 120) (some 60) (some 60),
   mkRow "D2" 1 (some 300) (some 120) (some 180),
   mkRow "D3" 1 (some 300) (some 180) (some 120)]

/-- Two mobilisation rows of one incident sharing the minimal `PumpOrder`
but differing in turnout time. -/
def tieRowA : Record := mkRow "A1" 1 (some 300) (some 80) (some 220)

/-- The second of the tied rows. -/
def tieRowB : Record := mkRow "A1" 1 (some 300) (some 95) (some 205)

/-- An incident row whose borough has no polygon in the boundary file. -/
def strayBoroughRow : Record :=
  { mkRow "G1" 1 none none none with incGeoBoroughName := "Nowhere" }

/-- A one-borough boundary table (Camden, 2179 ha, inner London). -/
def shapesCamden : List BoroughShape :=
  [{ NAME := "Camden", HECTARES := 2179, ONS_INNER := "T" }]

/-- A store holding one loaded frame (frame 0). -/
def store0 : Store :=
  ⟨[[mkRow "A1" 1 (some 300) (some 80) (some 220)]]⟩

/-! # Lemmas about the sort model -/

theorem mem_insertLe {le : α → α → Bool} {x a : α} {l : List α} :
    a ∈ insertLe le x l ↔ a = x ∨ a ∈ l := by
  induction l with
  | nil => simp [insertLe]
  | cons y ys ih =>
      simp only [insertLe]
      split
      · simp only [List.mem_cons, ih]
        tauto
      · simp only [List.mem_cons]

theorem insertLe_perm (le : α → α → Bool) (x : α) (l : List α) :
    (insertLe le x l).Perm (x :: l) := by
  induction l with
  | nil => simp [insertLe]
  | cons y ys ih =>
      simp only [insertLe]
      split
      · exact (ih.cons y).trans (List.Perm.swap x y ys)
      · exact List.Perm.refl _

theorem foldl_insertLe_perm (le : α → α → Bool) (xs : List α) :
    ∀ acc : List α,
      (xs.foldl (fun acc x => insertLe le x acc) acc).Perm (xs ++ acc) := by
  induction xs with
  | nil => intro acc; simp
  | cons x xs ih =>
      intro acc
      simp only [List.foldl_cons, List.cons_append]
      exact ((ih (insertLe le x acc)).trans
        ((insertLe_perm le x acc).append_left xs)).trans List.perm_middle

theorem sortLe_perm (le : α → α → Bool) (xs : List α) :
    (sortLe le xs).Perm xs := by
  simpa [sortLe] using foldl_insertLe_perm le xs []

theorem mem_sortLe {le : α → α → Bool} {xs : List α} {a : α} :
    a ∈ sortLe le xs ↔ a ∈ xs :=
  (sortLe_perm le xs).mem_iff

theorem pairwise_insertLe {le : α → α → Bool}
    (htot : ∀ a b, le a b = false → le b a = true)
    (htrans : ∀ a b c, le a b = true → le b c = true → le a c = true)
    {x : α} {l : List α} (h : l.Pairwise (fun a b => le a b = true)) :
    (insertLe le x l).Pairwise (fun a b => le a b = true) := by
  induction l with
  | nil => simp [insertLe]
  | cons y ys ih =>
      rcases List.pairwise_cons.mp h with ⟨hy, hys⟩
      simp only [insertLe]
      split_ifs with hyx
      · refine List.pairwise_cons.mpr ⟨?_, ih hys⟩
        intro z hz
        rcases mem_insertLe.mp hz with rfl | hz'
        · exact hyx
        · exact hy z hz'
      · have hxy : le x y = true := htot y x (Bool.not_eq_true _ ▸ hyx)
        refine List.pairwise_cons.mpr ⟨?_, h⟩
        intro z hz
        rcases List.mem_cons.mp hz with rfl | hz'
        · exact hxy
        · exact htrans x y z hxy (hy z hz')

theorem pairwise_sortLe {le : α → α → Bool}
    (htot : ∀ a b, le a b = false → le b a = true)
    (htrans : ∀ a b c, le a b = true → le b c = true → le a c = true)
    (xs : List α) :
    (sortLe le xs).Pairwise (fun a b => le a b = true) := by
  suffices h : ∀ acc : List α, acc.Pairwise (fun a b => le a b = true) →
      (xs.foldl (fun acc x => insertLe le x acc) acc).Pairwise
        (fun a b => le a b = true) from h [] (by simp)
  induction xs with
  | nil => intro acc hacc; simpa using hacc
  | cons x xs ih =>
      intro acc hacc
      exact ih _ (pairwise_insertLe htot htrans hacc)

theorem pumpLe_total (a b : Record) : pumpLe a b = false → pumpLe b a = true := by
  simp only [pumpLe, decide_eq_false_iff_not, decide_eq_true_eq]
  omega

theorem pumpLe_trans (a b c : Record) :
    pumpLe a b = true → pumpLe b c = true → pumpLe a c = true := by
  simp only [pumpLe, decide_eq_true_eq]
  omega

theorem pairwise_sortValuesPumpOrder (df : List Record) :
    (sortValuesPumpOrder df).Pairwise (fun a b => pumpLe a b = true) :=
  pairwise_sortLe pumpLe_total pumpLe_trans df

/-! # Lemmas about keep-first deduplication -/

theorem dropDuplicatesAux_sublist (seen : List String) (l : List Record) :
    (dropDuplicatesAux seen l).Sublist l := by
  induction l generalizing seen with
  | nil => simp [dropDuplicatesAux]
  | cons r rs ih =>
      simp only [dropDuplicatesAux]
      split_ifs
      · exact (ih seen).cons r
      · exact (ih _).cons₂ r

theorem key_dropDuplicatesAux_mem (seen : List String) (l : List Record)
    (k : String) :
    k ∈ (dropDuplicatesAux seen l).map Record.incidentNumber ↔
      (k ∈ l.map Record.incidentNumber ∧ k ∉ seen) := by
  induction l generalizing seen with
  | nil => simp [dropDuplicatesAux]
  | cons r rs ih =>
      simp only [dropDuplicatesAux]
      split_ifs with hmem
      · rw [ih seen]
        simp only [List.map_cons, List.mem_cons]
        constructor
        · rintro ⟨h1, h2⟩
          exact ⟨Or.inr h1, h2⟩
        · rintro ⟨h1 | h1, h2⟩
          · exact absurd (h1 ▸ hmem) h2
          · exact ⟨h1, h2⟩
      · by_cases hk : k = r.incidentNumber
        · subst hk
          simp [hmem]
        · simp only [List.map_cons, List.mem_cons, ih (r.incidentNumber :: seen)]
          simp [hk]

theorem key_dropDuplicatesAux_nodup (seen : List String) (l : List Record) :
    ((dropDuplicatesAux seen l).map Record.incidentNumber).Nodup := by
  induction l generalizing seen with
  | nil => simp [dropDuplicatesAux]
  | cons r rs ih =>
      simp only [dropDuplicatesAux]
      split_ifs with hmem
      · exact ih seen
      · simp only [List.map_cons, List.nodup_cons]
        refine ⟨fun hk => ?_, ih _⟩
        exact ((key_dropDuplicatesAux_mem _ _ _).mp hk).2 (List.mem_cons_self _ _)

theorem dropDuplicatesAux_min (seen : List String) (l : List Record)
    (h : l.Pairwise (fun a b => pumpLe a b = true)) :
    ∀ r ∈ dropDuplicatesAux seen l,
      r ∈ l ∧ r.incidentNumber ∉ seen ∧
        ∀ s ∈ l, s.incidentNumber = r.incidentNumber →
          r.pumpOrder ≤ s.pumpOrder := by
  induction l generalizing seen with
  | nil => simp [dropDuplicatesAux]
  | cons x xs ih =>
      rcases List.pairwise_cons.mp h with ⟨hx, hxs⟩
      intro r hr
      simp only [dropDuplicatesAux] at hr
      split_ifs at hr with hmem
      · rcases ih seen hxs r hr with ⟨h1, h2, h3⟩
        refine ⟨List.mem_cons_of_mem _ h1, h2, ?_⟩
        intro s hs hkey
        rcases List.mem_cons.mp hs with rfl | hs'
        · exact absurd (hkey ▸ hmem) h2
        · exact h3 s hs' hkey
      · rcases List.mem_cons.mp hr with rfl | hr'
        · refine ⟨List.mem_cons_self _ _, hmem, ?_⟩
          intro s hs hkey
          rcases List.mem_cons.mp hs with rfl | hs'
          · exact le_refl _
          · simpa [pumpLe] using hx s hs'
        · rcases ih _ hxs r hr' with ⟨h1, h2, h3⟩
          have hne : r.incidentNumber ≠ x.incidentNumber :=
            fun he => h2 (he ▸ List.mem_cons_self _ _)
          refine ⟨List.mem_cons_of_mem _ h1,
            fun hc => h2 (List.mem_cons_of_mem _ hc), ?_⟩
          intro s hs hkey
          rcases List.mem_cons.mp hs with rfl | hs'
          · exact absurd hkey.symm hne
          · exact h3 s hs' hkey

theorem mem_of_mem_filteredIncidents {r : Record} {l : List Record} :
    r ∈ filteredIncidents l → r ∈ l := fun h =>
  mem_sortLe.mp ((dropDuplicatesAux_sublist [] _).subset h)

theorem filteredIncidents_ne_nil {l : List Record} (h : l ≠ []) :
    filteredIncidents l ≠ [] := by
  have hperm := sortLe_perm pumpLe l
  rcases hsort : sortValuesPumpOrder l with _ | ⟨x, xs⟩
  · rw [sortValuesPumpOrder] at hsort
    rw [hsort] at hperm
    exact absurd hperm.symm.eq_nil h
  · rw [sortValuesPumpOrder] at hsort
    simp [filteredIncidents, dropDuplicatesIncidentNumber, sortValuesPumpOrder,
      hsort, dropDuplicatesAux]

/-! # Lemmas about the filters -/

theorem mem_of_mem_yearMonthBranchFilter {r : Record} {df : List Record}
    {y : Option Int} {m : Option String} :
    r ∈ yearMonthBranchFilter df y m → r ∈ df := by
  cases y <;> cases m <;> simp only [yearMonthBranchFilter] <;>
    first
    | exact id
    | exact fun h => (List.mem_filter.mp h).1

theorem mem_of_mem_incidentTypeFilter {r : Record} {df : List Record}
    {t : Option String} :
    r ∈ incidentTypeFilter df t → r ∈ df := by
  cases t <;> simp only [incidentTypeFilter] <;>
    first
    | exact id
    | exact fun h => (List.mem_filter.mp h).1

theorem mem_of_mem_filteredDf {r : Record} {df : List Record} {y : Option Int}
    {m t : Option String} :
    r ∈ filteredDf df y m t → r ∈ df := fun h =>
  mem_of_mem_yearMonthBranchFilter (mem_of_mem_incidentTypeFilter h)

theorem meanQ_isSome_of_ne_nil {xs : List ℚ} (h : xs ≠ []) :
    (meanQ xs).isSome := by
  rw [meanQ, if_neg]
  · rfl
  · simpa [List.length_eq_zero] using h

/-! # Claims -/

/-- C1: for every input dataset and every combination of the year, month and
incident-type selections, the deduplicated incident-level set (sort by
`PumpOrder`, drop duplicate `IncidentNumber`s keeping the first) has exactly
one row per distinct `IncidentNumber` present in the filtered
mobilisation-level set — its incident numbers are duplicate-free and are
exactly those of the filtered set — and every retained row is a filtered row
whose `PumpOrder` is minimal among the filtered rows of its incident. -/
theorem dedup_unique_min_pump (df : List Record) (y : Option Int)
    (m t : Option String) :
    ((filteredIncidents (filteredDf df y m t)).map Record.incidentNumber).Nodup ∧
    (∀ i, i ∈ (filteredDf df y m t).map Record.incidentNumber ↔
        i ∈ (filteredIncidents (filteredDf df y m t)).map Record.incidentNumber) ∧
    (∀ r ∈ filteredIncidents (filteredDf df y m t),
        r ∈ filteredDf df y m t ∧
        ∀ s ∈ filteredDf df y m t,
          s.incidentNumber = r.incidentNumber → r.pumpOrder ≤ s.pumpOrder) := by
  refine ⟨key_dropDuplicatesAux_nodup [] _, ?_, ?_⟩
  · intro i
    have hp : ((sortValuesPumpOrder (filteredDf df y m t)).map
        Record.incidentNumber).Perm
          ((filteredDf df y m t).map Record.incidentNumber) :=
      (sortLe_perm pumpLe _).map _
    rw [filteredIncidents, dropDuplicatesIncidentNumber,
      key_dropDuplicatesAux_mem]
    simp [hp.mem_iff]
  · intro r hr
    have hpair := pairwise_sortValuesPumpOrder (filteredDf df y m t)
    rw [filteredIncidents, dropDuplicatesIncidentNumber] at hr
    rcases dropDuplicatesAux_min [] _ hpair r hr with ⟨h1, _, h3⟩
    refine ⟨mem_sortLe.mp h1, ?_⟩
    intro s hs hkey
    exact h3 s (mem_sortLe.mpr hs) hkey

/-- Witness for C1 at the spec's scenario (incident `"A1"`, `PumpOrder` 1
and 2): the `PumpOrder = 1` row is the retained one and its order is minimal. -/
theorem dedup_unique_min_pump_witness :
    (mkRow "A1" 1 (some 300) (some 80) (some 220)).pumpOrder ≤
      (mkRow "A1" 2 (some 300) (some 95) (some 240)).pumpOrder ∧
    filteredIncidents (filteredDf twoMobilisations none none none) =
      [mkRow "A1" 1 (some 300) (some 80) (some 220)] :=
  ⟨(((dedup_unique_min_pump twoMobilisations none none none).2.2
      (mkRow "A1" 1 (some 300) (some 80) (some 220)) (by decide)).2
      (mkRow "A1" 2 (some 300) (some 95) (some 240)) (by decide) (by decide)),
    by decide⟩

/-- C2: if the combined year/month/incident-type filter leaves zero records
the pipeline yields the `EmptyResult` signal (`none`, the model of
`st.warning` + `st.stop`) and nothing else; whenever it does aggregate, the
filtered set was non-empty, the incident count underlying every rate is
positive, and the two rate statistics are defined (no division by an empty
count is reached). -/
theorem empty_filter_halts (df : List Record) (y : Option Int)
    (m t : Option String) :
    (executiveSummaryPipeline df y m t = none ↔ filteredDf df y m t = []) ∧
    ∀ s, executiveSummaryPipeline df y m t = some s →
      0 < s.totalIncidents ∧ s.responseWithin6min.isSome ∧
        s.extremeDelayRate.isSome := by
  by_cases hfd : filteredDf df y m t = []
  · rw [executiveSummaryPipeline]
    simp [hfd]
  · have hne := filteredIncidents_ne_nil hfd
    rw [executiveSummaryPipeline]
    rw [if_neg (by simpa [List.isEmpty_iff] using hfd)]
    refine ⟨by simp [hfd], ?_⟩
    rintro s hs
    obtain rfl : computeKPIs (filteredIncidents (filteredDf df y m t)) = s :=
      Option.some_injective _ hs
    refine ⟨?_, ?_, ?_⟩
    · simpa [computeKPIs, List.length_pos] using hne
    · simp only [computeKPIs, Option.isSome_map']
      apply meanQ_isSome_of_ne_nil
      simp [hne]
    · simp only [computeKPIs, Option.isSome_map']
      apply meanQ_isSome_of_ne_nil
      simp [hne]

/-- Witness for C2: on a non-empty filtered set the pipeline aggregates and
every rate is defined. -/
theorem empty_filter_halts_witness :
    0 < (computeKPIs (filteredIncidents
        (filteredDf twoMobilisations none none none))).totalIncidents ∧
    (computeKPIs (filteredIncidents
        (filteredDf twoMobilisations none none none))).responseWithin6min.isSome ∧
    (computeKPIs (filteredIncidents
        (filteredDf twoMobilisations none none none))).extremeDelayRate.isSome :=
  (empty_filter_halts twoMobilisations none none none).2 _ rfl

/-- C4: the four-branch year/month filter followed by the optional
incident-type filter keeps exactly the records satisfying the spec's single
three-way conjunction, for every dataset and every choice of the three
selections. -/
theorem branch_filter_eq_spec_conjunction (df : List Record) (y : Option Int)
    (m t : Option String) :
    filteredDf df y m t = specConjunctionFilter df y m t := by
  cases y <;> cases m <;> cases t <;>
    simp only [filteredDf, yearMonthBranchFilter, incidentTypeFilter,
      specConjunctionFilter, List.filter_filter, Bool.true_and, Bool.and_true,
      List.filter_true] <;>
    first
      | rfl
      | exact List.filter_congr fun a _ => Bool.and_comm _ _

theorem sum_indicator_eq_countP (p : Record → Bool) (l : List Record) :
    (l.map (fun r => indicator (p r))).sum = (l.countP p : ℚ) := by
  induction l with
  | nil => simp
  | cons r rs ih =>
      simp only [List.map_cons, List.sum_cons, List.countP_cons, ih]
      by_cases hp : p r
      · simp only [indicator, hp, if_true]
        push_cast
        ring
      · simp [indicator, hp]

/-- C5: on every non-empty incident-level set the compliance rate is the
fraction of attendance values at most 360 s times 100 and the extreme-delay
rate is the fraction strictly above 600 s times 100 (the median is the
order-statistic by definition of `medianQ`); on the spec's synthetic set of
4 incidents with attendance [300, 360, 420, 900] s the pipeline yields
median 390 s (6.5 min), compliance 50 % and extreme-delay rate 25 %. -/
theorem kpi_formulas_and_scenario :
    (∀ fi : List Record, fi ≠ [] →
      (computeKPIs fi).responseWithin6min =
        some ((fi.countP (attendanceLe 360) : ℚ) / fi.length * 100) ∧
      (computeKPIs fi).extremeDelayRate =
        some ((fi.countP (attendanceGt 600) : ℚ) / fi.length * 100)) ∧
    medianQ [300, 360, 420, 900] = some 390 ∧
    (computeKPIs scenarioIncidents).medianResponse = some (13 / 2) ∧
    (computeKPIs scenarioIncidents).responseWithin6min = some 50 ∧
    (computeKPIs scenarioIncidents).extremeDelayRate = some 25 := by
  refine ⟨fun fi hfi => ?_, ?_, ?_, ?_, ?_⟩
  · have hlen : ¬ fi.length = 0 := by simpa [List.length_eq_zero] using hfi
    constructor <;>
      simp [computeKPIs, meanQ, hlen, sum_indicator_eq_countP]
  · norm_num [medianQ, sortLe, insertLe, ratLe, List.getD]
  · have h1 : attendanceSeconds scenarioIncidents = [300, 360, 420, 900] := by
      norm_num [attendanceSeconds, scenarioIncidents, mkRow,
        List.filterMap_cons]
    have h2 : medianQ [300, 360, 420, 900] = some 390 := by
      norm_num [medianQ, sortLe, insertLe, ratLe, List.getD]
    simp only [computeKPIs, h1, h2, Option.map_some']
    norm_num
  · have h3 : scenarioIncidents.map (fun r => indicator (attendanceLe 360 r)) =
        [1, 1, 0, 0] := by
      norm_num [scenarioIncidents, mkRow, indicator, attendanceLe]
    simp only [computeKPIs, h3, meanQ]
    norm_num
  · have h4 : scenarioIncidents.map (fun r => indicator (attendanceGt 600 r)) =
        [0, 0, 0, 1] := by
      norm_num [scenarioIncidents, mkRow, indicator, attendanceGt]
    simp only [computeKPIs, h4, meanQ]
    norm_num

/-- Witness for C5: the formula part applied to the scenario set. -/
theorem kpi_formulas_and_scenario_witness :
    (computeKPIs scenarioIncidents).responseWithin6min =
      some ((scenarioIncidents.countP (attendanceLe 360) : ℚ) /
        scenarioIncidents.length * 100) ∧
    (computeKPIs scenarioIncidents).extremeDelayRate =
      some ((scenarioIncidents.countP (attendanceGt 600) : ℚ) /
        scenarioIncidents.length * 100) :=
  kpi_formulas_and_scenario.1 scenarioIncidents (by decide)

/-- C6: the sum of the independently computed component medians need not be
the median of the per-incident sums — on `driversExample` both medians are
2 min while the median summed component is 5 min — and the page's
`travel_share_pct` divides the median travel time by the sum of the two
medians (yielding 50 %), not by the median of the summed series (which
would yield 40 %). -/
theorem median_not_additive_travel_share :
    overallTurnout driversExample = some 2 ∧
    overallTravel driversExample = some 2 ∧
    medianComponentSum driversExample = some 5 ∧
    ¬((2 : ℚ) + 2 = 5) ∧
    travelSharePct driversExample = some 50 ∧
    ¬((2 : ℚ) / 5 * 100 = 50) := by
  have hlt : driversExample.filterMap
      (fun r => r.turnoutTimeSeconds.map (fun a => (a : ℚ) / 60)) =
      [1, 2, 3] := by
    norm_num [driversExample, mkRow, List.filterMap_cons]
  have hlv : driversExample.filterMap
      (fun r => r.travelTimeSeconds.map (fun a => (a : ℚ) / 60)) =
      [1, 3, 2] := by
    norm_num [driversExample, mkRow, List.filterMap_cons]
  have ht : overallTurnout driversExample = some 2 := by
    rw [overallTurnout, hlt]
    norm_num [medianQ, sortLe, insertLe, ratLe, List.getD]
  have hv : overallTravel driversExample = some 2 := by
    rw [overallTravel, hlv]
    norm_num [medianQ, sortLe, insertLe, ratLe, List.getD]
  refine ⟨ht, hv, ?_, by norm_num, ?_, by norm_num⟩
  · have hls : driversExample.filterMap
        (fun r =>
          match r.turnoutTimeSeconds, r.travelTimeSeconds with
          | some a, some b => some (((a : ℚ) + b) / 60)
          | _, _ => none) = [2, 5, 5] := by
      norm_num [driversExample, mkRow, List.filterMap_cons]
    rw [medianComponentSum, hls]
    norm_num [medianQ, sortLe, insertLe, ratLe, List.getD]
  · rw [travelSharePct, ht, hv]
    norm_num

/-- C10: for every loaded dataset and filter selection, the compliance rate
read off the `FirstPump_Within_6min` flag precomputed at load time equals
the rate computed directly from the attendance column (missing attendance
is non-compliant either way, since the load-time comparison and the direct
comparison both give `False` on `NaN`). -/
theorem flag_compliance_agrees (raw : List Record) (y : Option Int)
    (m t : Option String) :
    complianceRateFromFlag (filteredIncidents (filteredDf (loadData raw) y m t)) =
      (computeKPIs (filteredIncidents
        (filteredDf (loadData raw) y m t))).responseWithin6min := by
  have hlist :
      (filteredIncidents (filteredDf (loadData raw) y m t)).map
          (fun r => indicator r.firstPumpWithin6min) =
        (filteredIncidents (filteredDf (loadData raw) y m t)).map
          (fun r => indicator (attendanceLe 360 r)) := by
    refine List.map_congr_left fun r hr => ?_
    have hdf : r ∈ loadData raw :=
      mem_of_mem_filteredDf (mem_of_mem_filteredIncidents hr)
    rcases List.mem_map.mp hdf with ⟨r0, _, rfl⟩
    simp [loadFlag, attendanceLe]
  simp only [complianceRateFromFlag, computeKPIs, hlist]

/-- C3 (code evaluation at the failing input): the code sorts with
`sort_values("PumpOrder")` and the pandas default `kind='quicksort'`, whose
only contract is to produce some `PumpOrder`-ordered rearrangement of the
input — it is not stable.  Both orderings of two tied rows (same
`IncidentNumber`, same minimal `PumpOrder`, different turnout times) are
such rearrangements, and `drop_duplicates` retains a different row on each,
so the code does not ensure that the earliest tied row in original input
order is the one retained. -/
theorem pump_sort_tie_underdetermined :
    [tieRowA, tieRowB].Perm [tieRowB, tieRowA] ∧
    [tieRowA, tieRowB].Pairwise (fun a b => pumpLe a b = true) ∧
    [tieRowB, tieRowA].Pairwise (fun a b => pumpLe a b = true) ∧
    tieRowA.incidentNumber = tieRowB.incidentNumber ∧
    tieRowA.pumpOrder = tieRowB.pumpOrder ∧
    dropDuplicatesIncidentNumber [tieRowA, tieRowB] = [tieRowA] ∧
    dropDuplicatesIncidentNumber [tieRowB, tieRowA] = [tieRowB] ∧
    tieRowA ≠ tieRowB := by
  decide

/-- C7 (counterexample to the exclusion clause): one incident in borough
"Nowhere" against a boundary table holding only Camden — the unmatched
group's joined attributes are left null by the left join, yet its
(null, median) pair still appears in the input handed to
`linregress(borough_df["Area_km2"], borough_df["MedianResponseMinutes"])`:
unmatched groups are not excluded from the area-based regression. -/
theorem borough_regression_includes_unmatched :
    (∃ row ∈ boroughDf [strayBoroughRow] shapesCamden, row.areaKm2 = none) ∧
    ¬(∀ p ∈ areaRegressionPairs (boroughDf [strayBoroughRow] shapesCamden),
        p.1.isSome) := by
  decide

/-- C7 (amended): the boundary join matches on the whitespace-trimmed,
uppercased name key, as a left join from the incident-derived borough
aggregates; every borough name with no matching boundary polygon yields a
group row whose joined geographic attributes (`Area_km2`, `ONS_INNER`,
`AreaType`) are null, and that row is excluded from the inner/outer split —
but it is NOT dropped from the input of the overall area-versus-response
regression, where its null area propagates. -/
theorem borough_left_join_null_handling (fi : List Record)
    (shapes : List BoroughShape) (b : String)
    (h1 : b ∈ uniqueStrings (fi.map (fun r => r.incGeoBoroughName)))
    (h2 : shapes.filter (fun s => decide (cleanName s.NAME = cleanName b)) = []) :
    ∃ row ∈ boroughDf fi shapes,
      row.incGeoBoroughName = b ∧ row.nameClean = cleanName b ∧
      row.areaKm2 = none ∧ row.onsInner = none ∧ row.areaType = none ∧
      row ∉ innerDf (boroughDf fi shapes) ∧
      row ∉ outerDf (boroughDf fi shapes) ∧
      (row.areaKm2, row.medianResponseMinutes) ∈
        areaRegressionPairs (boroughDf fi shapes) := by
  obtain ⟨r0, hr0mem, hb, hnc, hak, hons, hat⟩ :
      ∃ row ∈ spatialBase fi, row.incGeoBoroughName = b ∧
        row.nameClean = cleanName b ∧ row.areaKm2 = none ∧
        row.onsInner = none ∧ row.areaType = none :=
    ⟨_, List.mem_map_of_mem _ h1, rfl, rfl, rfl, rfl, rfl⟩
  have hfilter :
      shapes.filter (fun s => decide (cleanName s.NAME = r0.nameClean)) = [] := by
    rw [hnc]
    exact h2
  have hself : ∀ v : BoroughRow, v.areaKm2 = none → v.onsInner = none →
      v.areaType = none →
      ({ v with areaKm2 := none } = v ∧ { v with onsInner := none } = v ∧
        { v with areaType := none } = v) := by
    rintro ⟨_, _, _, _, _, _, _, _⟩ hx hy hz
    simp only at hx hy hz
    simp [hx, hy, hz]
  have hr1 : r0 ∈ mergeArea (spatialBase fi) shapes := by
    apply List.mem_flatMap.mpr
    refine ⟨r0, hr0mem, ?_⟩
    simp only [hfilter, List.mem_singleton]
    exact ((hself r0 hak hons hat).1).symm
  have hr2 : r0 ∈ mergeOns (mergeArea (spatialBase fi) shapes) shapes := by
    apply List.mem_flatMap.mpr
    refine ⟨r0, hr1, ?_⟩
    simp only [hfilter, List.mem_singleton]
    exact ((hself r0 hak hons hat).2.1).symm
  have hupd : ∀ v : BoroughRow, v.onsInner = none → v.areaType = none →
      { v with areaType := areaTypeOf v.onsInner } = v := by
    rintro ⟨_, _, _, _, _, _, o, a⟩ hy hz
    simp only at hy hz
    subst hy
    subst hz
    rfl
  have hr3 : r0 ∈ boroughDf fi shapes := by
    rw [boroughDf]
    have hmap := List.mem_map_of_mem
      (fun row => { row with areaType := areaTypeOf row.onsInner }) hr2
    beta_reduce at hmap
    rwa [hupd r0 hons hat] at hmap
  refine ⟨r0, hr3, hb, hnc, hak, hons, hat, ?_, ?_, ?_⟩
  · intro hmem
    have hpred := (List.mem_filter.mp hmem).2
    rw [hat] at hpred
    simp at hpred
  · intro hmem
    have hpred := (List.mem_filter.mp hmem).2
    rw [hat] at hpred
    simp at hpred
  · exact List.mem_map_of_mem _ hr3

/-- Witness for C7 at the concrete unmatched borough "Nowhere". -/
theorem borough_left_join_null_handling_witness :
    ∃ row ∈ boroughDf [strayBoroughRow] shapesCamden,
      row.incGeoBoroughName = "Nowhere" ∧ row.nameClean = cleanName "Nowhere" ∧
      row.areaKm2 = none ∧ row.onsInner = none ∧ row.areaType = none ∧
      row ∉ innerDf (boroughDf [strayBoroughRow] shapesCamden) ∧
      row ∉ outerDf (boroughDf [strayBoroughRow] shapesCamden) ∧
      (row.areaKm2, row.medianResponseMinutes) ∈
        areaRegressionPairs (boroughDf [strayBoroughRow] shapesCamden) :=
  borough_left_join_null_handling [strayBoroughRow] shapesCamden "Nowhere"
    (by decide) (by decide)

/-! # Lemmas about the frame store -/

theorem Store.read_alloc_new (s : Store) (v : List Record) :
    ((s.alloc v).1).read (s.alloc v).2 = v := by
  simp only [Store.alloc, Store.read]
  rw [List.getD_eq_getElem?_getD, List.getElem?_append_right (le_refl _)]
  simp

theorem Store.read_alloc_fst {s : Store} {i : Nat} (v : List Record)
    (h : i < s.frames.length) : ((s.alloc v).1).read i = s.read i := by
  simp only [Store.alloc, Store.read]
  exact List.getD_append _ _ _ _ h

theorem Store.read_write_self {s : Store} {i : Nat} (v : List Record)
    (h : i < s.frames.length) : (s.write i v).read i = v := by
  simp only [Store.write, Store.read]
  rw [List.getD_eq_getElem?_getD, List.getElem?_set_self]
  · rfl
  · exact h

theorem Store.read_write_ne {s : Store} {i j : Nat} (v : List Record)
    (h : i ≠ j) : (s.write j v).read i = s.read i := by
  simp only [Store.write, Store.read]
  rw [List.getD_eq_getElem?_getD, List.getElem?_set_ne (by omega),
    ← List.getD_eq_getElem?_getD]

theorem Store.alloc_id (s : Store) (v : List Record) :
    (s.alloc v).2 = s.frames.length := rfl

theorem Store.alloc_length (s : Store) (v : List Record) :
    ((s.alloc v).1).frames.length = s.frames.length + 1 := by
  simp [Store.alloc]

theorem Store.write_length (s : Store) (i : Nat) (v : List Record) :
    (s.write i v).frames.length = s.frames.length := by
  simp [Store.write]

theorem page3Exec_snd (s : Store) (dfId : Nat) (y : Option Int)
    (m : Option String) :
    (page3Exec s dfId y m).2 = page3Pure (s.read dfId) y m := by
  rw [page3Exec, page3Pure]
  simp only [Store.read_alloc_new]
  by_cases hE : (yearMonthBranchFilter (s.read dfId) y m).isEmpty <;>
    simp only [hE, if_true, if_false, Bool.false_eq_true]
  simp only [Store.read_write_self, Store.read_alloc_new, Store.write_length,
    Store.alloc_length, Store.alloc_id, lt_add_one]

theorem page3Exec_read_preserved (s : Store) (dfId : Nat) (y : Option Int)
    (m : Option String) (h : dfId < s.frames.length) :
    ((page3Exec s dfId y m).1).read dfId = s.read dfId := by
  rw [page3Exec]
  simp only [Store.read_alloc_new]
  by_cases hE : (yearMonthBranchFilter (s.read dfId) y m).isEmpty <;>
    simp only [hE, if_true, if_false, Bool.false_eq_true]
  · exact Store.read_alloc_fst _ h
  · have hne : dfId ≠ ((s.alloc (yearMonthBranchFilter (s.read dfId) y m)).1.alloc
        (filteredIncidents (yearMonthBranchFilter (s.read dfId) y m))).2 := by
      rw [Store.alloc_id, Store.alloc_length]
      omega
    rw [Store.read_write_ne _ hne, Store.read_write_ne _ hne,
      Store.read_write_ne _ hne,
      Store.read_alloc_fst _ (by rw [Store.alloc_length]; omega),
      Store.read_alloc_fst _ h]

/-- C9: no page run mutates the shared loaded dataset: after one full run of
the filter → dedup → KPI → column-assignment sequence against the store, the
frame holding the loaded dataset reads back unchanged — every write of the
run targets the freshly allocated, copied incident-level frame. -/
theorem run_preserves_shared_frame (s : Store) (dfId : Nat) (y : Option Int)
    (m : Option String) (h : dfId < s.frames.length) :
    ((page3Exec s dfId y m).1).read dfId = s.read dfId :=
  page3Exec_read_preserved s dfId y m h

/-- Witness for C9 at a concrete one-frame store. -/
theorem run_preserves_shared_frame_witness :
    0 < store0.frames.length ∧
    ((page3Exec store0 0 none none).1).read 0 = store0.read 0 :=
  ⟨by decide, run_preserves_shared_frame store0 0 none none (by decide)⟩

/-- C8: re-running the page with identical selections, on the store the
first run leaves behind, produces identical output — the KPI block and the
derived incident-level table — because each run is a function of the shared
frame alone and the first run left that frame unchanged. -/
theorem rerun_bit_identical (s : Store) (dfId : Nat) (y : Option Int)
    (m : Option String) (h : dfId < s.frames.length) :
    (page3Exec ((page3Exec s dfId y m).1) dfId y m).2 =
      (page3Exec s dfId y m).2 := by
  rw [page3Exec_snd, page3Exec_snd, page3Exec_read_preserved s dfId y m h]

/-- Witness for C8 at a concrete one-frame store. -/
theorem rerun_bit_identical_witness :
    0 < store0.frames.length ∧
    (page3Exec ((page3Exec store0 0 none none).1) 0 none none).2 =
      (page3Exec store0 0 none none).2 :=
  ⟨by decide, rerun_bit_identical store0 0 none none (by decide)⟩

end LFB
